import Mathlib

/-!
Verification of the CloudGuardian compliance-scanning core against its
natural-language specification.  The Python source under `backend/` is
shallowly embedded: pure functions become Lean functions, the database
session becomes explicit state passing over a `Db` record of committed
rows, wall-clock times become `Nat` parameters, and Python exceptions
(`KeyError`, scanner failures) become `Except` values.  Float arithmetic
from the source is modelled with exact rationals; Python's `round`
(round half to even) is modelled by `roundHalfEven`.
-/

/-! ## Compliance Scoring Engine (backend/utils/compliance_framework.py) -/

/-- Each entry of the `SEVERITY_LEVELS` dict, reduced to its `score` field:
CRITICAL=10, HIGH=7, MEDIUM=4, LOW=2. -/
def SEVERITY_LEVELS : List (String × Nat) :=
  [("CRITICAL", 10), ("HIGH", 7), ("MEDIUM", 4), ("LOW", 2)]

/-- Python dict subscription `d[k]` on a literal dict: returns the value,
or raises `KeyError(k)` (modelled as `Except.error k`) when absent. -/
def dictLookup (k : String) : List (String × Nat) → Except String Nat
  | [] => Except.error k
  | (k', s) :: rest => if k = k' then Except.ok s else dictLookup k rest

/-- A violation dictionary as consumed by `get_compliance_score`, which
reads only the `severity` key; `none` models a dict without that key. -/
structure ViolationDict where
  severity : Option String
deriving DecidableEq

/-- Python `v.get('severity', 'LOW')`: the stored severity, defaulting to
"LOW" when the key is missing. -/
def severityKey (v : ViolationDict) : String := v.severity.getD "LOW"

/-- `SEVERITY_LEVELS[v.get('severity', 'LOW')]['score']`: dict lookup of the
severity weight, raising `KeyError` on an unknown severity string. -/
def severityScore (k : String) : Except String Nat := dictLookup k SEVERITY_LEVELS

/-- The generator sum `sum(SEVERITY_LEVELS[v.get('severity','LOW')]['score']
for v in violations)`, evaluated left to right; the first unknown severity
raises (propagates as `Except.error`). -/
def totalSeverity : List ViolationDict → Except String Nat
  | [] => Except.ok 0
  | v :: vs =>
    match severityScore (severityKey v), totalSeverity vs with
    | Except.ok s, Except.ok rest => Except.ok (s + rest)
    | Except.error k, _ => Except.error k
    | Except.ok _, Except.error k => Except.error k

/-- Python 3 `round` ties-to-even on a rational value. -/
def roundHalfEven (q : ℚ) : ℤ :=
  if q - ⌊q⌋ < 1/2 then ⌊q⌋
  else if 1/2 < q - ⌊q⌋ then ⌊q⌋ + 1
  else if ⌊q⌋ % 2 = 0 then ⌊q⌋ else ⌊q⌋ + 1

/-- Python `round(x, 2)`. -/
def round2 (q : ℚ) : ℚ := (roundHalfEven (q * 100) : ℚ) / 100

/-- `get_compliance_score` (compliance_framework.py:65-82): 100.0 on an
empty list, else `round(max(0, 100 - total_severity/max_possible*100), 2)`
with `max_possible = len(violations) * 10`; an unknown severity string
raises `KeyError`. -/
def get_compliance_score (violations : List ViolationDict) : Except String ℚ :=
  if violations = [] then Except.ok 100
  else
    match totalSeverity violations with
    | Except.error k => Except.error k
    | Except.ok total_severity =>
      Except.ok (round2 (max 0 (100 -
        ((total_severity : ℚ) / ((violations.length : ℚ) * 10) * 100))))

/-- Modelled from the spec wording of claim C1 (severity weight table with
unknown/missing severities weighing as LOW): the score formula as the claim
states it, for comparison with the source-embedded `get_compliance_score`. -/
def specSeverityWeight (sev : Option String) : Nat :=
  match sev with
  | some "CRITICAL" => 10
  | some "HIGH" => 7
  | some "MEDIUM" => 4
  | _ => 2

/-- Modelled from the spec wording of claim C1: empty set scores 100,
otherwise `max(0, 100 - (sum of weights / (count * 10)) * 100)` rounded to
two decimal places. -/
def specWeightedScore (vs : List ViolationDict) : ℚ :=
  if vs = [] then 100
  else round2 (max 0 (100 -
    (((vs.map fun v => specSeverityWeight v.severity).sum : ℚ) /
      ((vs.length : ℚ) * 10) * 100)))

/-- A severity value the scoring function handles without raising:
missing, or one of the four known levels. -/
def validSeverity (v : ViolationDict) : Bool :=
  match v.severity with
  | none => true
  | some s => s == "CRITICAL" || s == "HIGH" || s == "MEDIUM" || s == "LOW"

def vUnknown : ViolationDict := ⟨some "UNKNOWN"⟩

def vHigh : ViolationDict := ⟨some "HIGH"⟩

def vMissing : ViolationDict := ⟨none⟩

/-! ## IAM Risk Classifier (backend/scanners/iam_scanner.py) -/

/-- High-risk managed policy names flagged by the IAM scanner
(iam_scanner.py:12-18).  Python list membership is exact string equality,
so the literal entry "*FullAccess" is not a glob here. -/
def RISKY_POLICIES : List String :=
  ["AdministratorAccess", "PowerUserAccess", "IAMFullAccess", "SecurityAudit", "*FullAccess"]

/-- Helper for Python substring containment: does `hay` start with `needle`. -/
def strStarts : List Char → List Char → Bool
  | [], _ => true
  | _ :: _, [] => false
  | c :: cs, d :: ds => c == d && strStarts cs ds

/-- Helper for Python substring containment over char lists. -/
def strHasSub (needle : List Char) : List Char → Bool
  | [] => needle.isEmpty
  | d :: ds => strStarts needle (d :: ds) || strHasSub needle ds

/-- Python string containment `needle in hay`. -/
def pyContains (needle hay : String) : Bool := strHasSub needle.toList hay.toList

/-- The per-policy branch of `analyze_risk`'s first loop
(iam_scanner.py:181-185): a reason for a policy in `RISKY_POLICIES`, else
a reason when the name contains "FullAccess", else nothing. -/
def policyReason (policy : String) : Option String :=
  if policy ∈ RISKY_POLICIES then some ("Has " ++ policy ++ " policy")
  else if pyContains "FullAccess" policy then some ("Has " ++ policy ++ " policy")
  else none

/-- The `risk_reasons` list accumulated by `analyze_risk`
(iam_scanner.py:178-194): per-policy reasons in attachment order, then the
excessive-policy-count reason, then the inline-policy reason. -/
def riskReasons (attached_policies inline_policies : List String) : List String :=
  (attached_policies.filterMap policyReason
    ++ (if 10 < attached_policies.length + inline_policies.length
        then ["Has " ++ toString (attached_policies.length + inline_policies.length)
              ++ " policies (excessive)"]
        else []))
    ++ (if 0 < inline_policies.length
        then ["Has " ++ toString inline_policies.length ++ " inline policies"]
        else [])

/-- The `risk_level` decision chain of `analyze_risk`
(iam_scanner.py:196-204). -/
def riskLevel (attached_policies inline_policies : List String) : String :=
  if "AdministratorAccess" ∈ attached_policies ∨ "IAMFullAccess" ∈ attached_policies
  then "CRITICAL"
  else if 3 ≤ (riskReasons attached_policies inline_policies).length then "HIGH"
  else if 0 < (riskReasons attached_policies inline_policies).length then "MEDIUM"
  else "LOW"

/-- `IAMScanner.analyze_risk` (iam_scanner.py:176-206): returns
`(risk_level, risk_reasons)`. -/
def analyze_risk (attached_policies inline_policies : List String) : String × List String :=
  (riskLevel attached_policies inline_policies,
   riskReasons attached_policies inline_policies)

/-! ## Persistence model (backend/database/models.py)

Database rows as plain records; a `Db` is the committed content of the two
tables this core writes.  Timestamps are `Nat`. -/

/-- A row of the `scan_results` table (models.py:9-36). -/
structure ScanResultRow where
  scan_id : Option String
  resource_id : String
  resource_type : String
  violation_name : String
  severity : String
  description : String
  remediation_suggestion : String
  compliance_framework : String
  is_compliant : Bool
  cloud_provider : String
  account_id : Option String
  region : String
  timestamp : Option Nat
  first_detected : Option Nat
  status : String
deriving DecidableEq

/-- A row of the `scan_history` table (models.py:85-113); the wall-clock
`scan_duration` field is not modelled. -/
structure ScanHistoryRow where
  scan_id : String
  account_id : String
  region : String
  timestamp : Nat
  total_resources : Nat
  compliant_count : Nat
  violation_count : Nat
  compliance_score : Int
  critical_count : Nat
  high_count : Nat
  medium_count : Nat
  low_count : Nat
  triggered_by : String
deriving DecidableEq

/-- Committed database state: the two tables the core writes. -/
structure Db where
  scan_results : List ScanResultRow
  scan_history : List ScanHistoryRow
deriving DecidableEq

/-- The (account_id, region) scope's currently stored violations, as a
reader's query `ScanResult.filter(account_id == a, region == r)` returns
them. -/
def activeFor (account_id region : String) (db : Db) : List ScanResultRow :=
  db.scan_results.filter fun row =>
    decide (row.account_id = some account_id ∧ row.region = region)

/-! ## AWS scanner (backend/scanners/aws_scanner.py) -/

/-- Outcome of `get_bucket_encryption` for one bucket: a configuration
response (with or without the `ServerSideEncryptionConfiguration` key), the
`ServerSideEncryptionConfigurationNotFoundError` exception, or another
`ClientError` with an error code. -/
inductive EncStatus where
  | hasConfig (hasRules : Bool)
  | notConfigured
  | clientError (code : String)
deriving DecidableEq

/-- One S3 bucket of the inventory, with its encryption-query outcome. -/
structure Bucket where
  name : String
  encryption : EncStatus
deriving DecidableEq

/-- A candidate violation dict as built by the checker methods of
`AWSScanner` (keys resource_id .. compliance_framework; note the
remediation key is named `remediation` here, not `remediation_suggestion`). -/
structure ScannerViolation where
  resource_id : String
  resource_type : String
  violation_name : String
  severity : String
  description : String
  remediation : String
  compliance_framework : String
deriving DecidableEq

/-- The HIGH "Unencrypted S3 Bucket" violation dict (aws_scanner.py:44-52). -/
def s3UnencryptedViolation (bucket_name : String) : ScannerViolation :=
  { resource_id := bucket_name
    resource_type := "S3 Bucket"
    violation_name := "Unencrypted S3 Bucket"
    severity := "HIGH"
    description := "S3 bucket \"" ++ bucket_name ++ "\" does not have encryption enabled"
    remediation := "Enable default S3 bucket encryption:\n\naws s3api put-bucket-encryption --bucket "
      ++ bucket_name
      ++ " --server-side-encryption-configuration \x27\x7b\"Rules\": [\x7b\"ApplyServerSideEncryptionByDefault\": \x7b\"SSEAlgorithm\": \"AES256\"\x7d\x7d]\x7d\x27"
    compliance_framework := "NIST SP 800-53 SC-28" }

/-- The CRITICAL "S3 Encryption Not Configured" violation dict
(aws_scanner.py:54-62). -/
def s3NotConfiguredViolation (bucket_name : String) : ScannerViolation :=
  { resource_id := bucket_name
    resource_type := "S3 Bucket"
    violation_name := "S3 Encryption Not Configured"
    severity := "CRITICAL"
    description := "S3 bucket \"" ++ bucket_name ++ "\" has no encryption configuration"
    remediation := "Enable S3 bucket encryption:\n\naws s3api put-bucket-encryption --bucket "
      ++ bucket_name
      ++ " --server-side-encryption-configuration \x27\x7b\"Rules\": [\x7b\"ApplyServerSideEncryptionByDefault\": \x7b\"SSEAlgorithm\": \"AES256\"\x7d\x7d]\x7d\x27"
    compliance_framework := "ISO 27001 A.10.1.1" }

/-- The per-bucket body of `scan_s3_encryption`'s loop (aws_scanner.py:38-65):
a violation on a config without the encryption key or on the not-found
exception; any other `ClientError` (AccessDenied or logged otherwise) skips
the bucket. -/
def checkBucketEncryption (b : Bucket) : List ScannerViolation :=
  match b.encryption with
  | EncStatus.hasConfig true => []
  | EncStatus.hasConfig false => [s3UnencryptedViolation b.name]
  | EncStatus.notConfigured => [s3NotConfiguredViolation b.name]
  | EncStatus.clientError _ => []

/-- `AWSScanner.scan_s3_encryption` (aws_scanner.py:27-69).  The whole body
sits under `except Exception: logger.error(...)`, so a failure of the
scope-wide `list_buckets` call (the `Except.error` case) is swallowed and
yields the empty violation list. -/
def scan_s3_encryption (fetched : Except String (List Bucket)) : List ScannerViolation :=
  match fetched with
  | Except.error _ => []
  | Except.ok buckets => buckets.flatMap checkBucketEncryption

/-- The `ScanResult(...)` constructed by `scan_all_resources`
(aws_scanner.py:255-268): `is_compliant=False`, `timestamp=utcnow()`, and
the model defaults `scan_id=None`, `first_detected=None`, `status="NEW"`. -/
def scanResultRowOfViolation (account_id region : String) (now : Nat)
    (v : ScannerViolation) : ScanResultRow :=
  { scan_id := none
    resource_id := v.resource_id
    resource_type := v.resource_type
    violation_name := v.violation_name
    severity := v.severity
    description := v.description
    remediation_suggestion := v.remediation
    compliance_framework := v.compliance_framework
    is_compliant := false
    cloud_provider := "AWS"
    account_id := some account_id
    region := region
    timestamp := some now
    first_detected := none
    status := "NEW" }

/-- The sequence of committed (reader-observable) database states produced
by one `scan_all_resources` cycle: the state after the delete-and-commit of
the scope's old rows, and the final state after the insert-and-commit. -/
structure CycleTrace where
  afterDelete : Db
  final : Db
deriving DecidableEq

/-- `AWSScanner.scan_all_resources` (aws_scanner.py:219-272): delete the
scope's old `ScanResult` rows and COMMIT; run the five checkers (the S3
checker is embedded, the results of the other four are passed in, each of
which likewise swallows its own fetch errors and returns a list); insert
all found violations and COMMIT.  No `ScanHistory` row is ever written by
this function. -/
def scan_all_resources (account_id region : String) (now : Nat)
    (s3Inventory : Except String (List Bucket))
    (otherFindings : List ScannerViolation) (db : Db) : CycleTrace :=
  let db1 : Db :=
    { db with scan_results := db.scan_results.filter fun row =>
        !(decide (row.account_id = some account_id ∧ row.region = region)) }
  let all_violations := scan_s3_encryption s3Inventory ++ otherFindings
  let db2 : Db :=
    { db1 with scan_results := db1.scan_results
        ++ all_violations.map (scanResultRowOfViolation account_id region now) }
  { afterDelete := db1, final := db2 }

/-! ## Continuous Monitoring Scheduler (backend/scheduler.py) -/

/-- One configured monitoring target `{account_id, region, access_key,
secret_key}` (scheduler.py:25). -/
structure Account where
  account_id : String
  region : String
  access_key : Option String
  secret_key : Option String
deriving DecidableEq

/-- The persisted monitoring configuration (scheduler.py:22-26). -/
structure MonitoringConfig where
  enabled : Bool
  interval_hours : Int
  accounts : List Account
deriving DecidableEq

/-- `DEFAULT_CONFIG` (scheduler.py:22-26). -/
def DEFAULT_CONFIG : MonitoringConfig :=
  { enabled := false, interval_hours := 24, accounts := [] }

/-- `configure_monitoring` (scheduler.py:159-187) as a transformation of
the persisted config: it overwrites `enabled` and `interval_hours` with
the given values, replaces `accounts` only when one is provided, and saves.
The function performs no validation and has no failure path. -/
def configure_monitoring (enabled : Bool) (interval_hours : Int)
    (accounts : Option (List Account)) (cfg : MonitoringConfig) : MonitoringConfig :=
  { enabled := enabled
    interval_hours := interval_hours
    accounts := match accounts with
      | some new => new
      | none => cfg.accounts }

/-- One result dict as consumed by `scheduled_scan_job`'s persistence loop
(scheduler.py:98-115), holding exactly the keys that loop reads. -/
structure RawResult where
  resource_id : String
  resource_type : String
  violation_name : String
  severity : String
  description : String
  remediation_suggestion : String
  compliance_framework : String
  is_compliant : Bool
deriving DecidableEq

/-- The `ScanResult(...)` row built by `scheduled_scan_job`
(scheduler.py:99-114): always `first_detected=datetime.now()` and
`status="NEW"`, regardless of any previously stored state. -/
def schedulerRow (scan_id account_id region : String) (now : Nat)
    (r : RawResult) : ScanResultRow :=
  { scan_id := some scan_id
    resource_id := r.resource_id
    resource_type := r.resource_type
    violation_name := r.violation_name
    severity := r.severity
    description := r.description
    remediation_suggestion := r.remediation_suggestion
    compliance_framework := r.compliance_framework
    is_compliant := r.is_compliant
    cloud_provider := "AWS"
    account_id := some account_id
    region := region
    timestamp := some now
    first_detected := some now
    status := "NEW" }

/-- The severity tally of `scheduled_scan_job` (scheduler.py:125-128),
read back per known severity. -/
def severityCount (sev : String) (violations : List RawResult) : Nat :=
  (violations.filter fun v => v.severity == sev).length

/-- The `ScanHistory.compliance_score` computed by `scheduled_scan_job`
(scheduler.py:122): `int(compliant/total*100)` when resources were scanned,
else 100; Python `int()` truncation on this non-negative value is floor. -/
def historyComplianceScore (total compliant : Nat) : Int :=
  if 0 < total then ⌊(compliant : ℚ) / (total : ℚ) * 100⌋ else 100

/-- The per-account body of `scheduled_scan_job`'s loop after a successful
scan (scheduler.py:95-148): append one `ScanResult` row per result, append
one `ScanHistory` row with `triggered_by="scheduled"`, and COMMIT. -/
def commitAccount (scan_id : String) (now : Nat) (a : Account)
    (results : List RawResult) (db : Db) : Db :=
  let rows := results.map (schedulerRow scan_id a.account_id a.region now)
  let violations := results.filter fun r => !r.is_compliant
  let total_resources := results.length
  let violation_count := violations.length
  let compliant_count := total_resources - violation_count
  let history : ScanHistoryRow :=
    { scan_id := scan_id
      account_id := a.account_id
      region := a.region
      timestamp := now
      total_resources := total_resources
      compliant_count := compliant_count
      violation_count := violation_count
      compliance_score := historyComplianceScore total_resources compliant_count
      critical_count := severityCount "CRITICAL" violations
      high_count := severityCount "HIGH" violations
      medium_count := severityCount "MEDIUM" violations
      low_count := severityCount "LOW" violations
      triggered_by := "scheduled" }
  { scan_results := db.scan_results ++ rows
    scan_history := db.scan_history ++ [history] }

/-- The `for account in accounts` loop of `scheduled_scan_job`
(scheduler.py:74-156).  The whole loop sits inside one `try`: the first
account whose scan raises jumps to the `except` handler, which rolls back
the failing account's uncommitted rows and ends the job, so no later
account is processed.  `scan` abstracts the scanner call (which in the
source always raises, since `AWSScanner` accepts no credential arguments
and has no `scan_all` method); `mkId` abstracts `uuid.uuid4()`. -/
def processAccounts (scan : Account → Except String (List RawResult))
    (mkId : Account → String) (now : Nat) : List Account → Db → Db
  | [], db => db
  | a :: rest, db =>
    match scan a with
    | Except.error _ => db
    | Except.ok results =>
      processAccounts scan mkId now rest (commitAccount (mkId a) now a results db)

/-- `scheduled_scan_job` (scheduler.py:51-156): a no-op when monitoring is
disabled or no accounts are configured, else the sequential per-account
loop. -/
def scheduled_scan_job (cfg : MonitoringConfig)
    (scan : Account → Except String (List RawResult))
    (mkId : Account → String) (now : Nat) (db : Db) : Db :=
  if !cfg.enabled then db
  else if cfg.accounts.isEmpty then db
  else processAccounts scan mkId now cfg.accounts db

/-! ## Coverage scores at the other surfaces -/

/-- The executive-summary compliance score of the PDF report
(report_generator.py:61-64): `compliant/total*100` over the queried rows,
0 when there are none. -/
def reportComplianceScore (results : List ScanResultRow) : ℚ :=
  if 0 < results.length
  then ((results.length - (results.filter fun r => !r.is_compliant).length : Nat) : ℚ)
    / (results.length : ℚ) * 100
  else 0

/-- The dashboard compliance score (app.py:104-116):
`round(compliant/total*100, 2)` over all stored rows, 100 when none. -/
def dashboardComplianceScore (rows : List ScanResultRow) : ℚ :=
  round2 (if 0 < rows.length
    then ((rows.filter fun r => r.is_compliant).length : ℚ) / (rows.length : ℚ) * 100
    else 100)

/-! ## Concrete fixtures used by the closed theorems -/

deriving instance DecidableEq for Except

/-- A bucket whose encryption query raises the not-found error. -/
def bucketNoEnc : Bucket := { name := "logs", encryption := EncStatus.notConfigured }

/-- An empty database. -/
def emptyDb : Db := { scan_results := [], scan_history := [] }

/-- A previously stored active violation for scope ("111", "us-east-1"). -/
def priorRow : ScanResultRow :=
  { scan_id := none
    resource_id := "old-bucket"
    resource_type := "S3 Bucket"
    violation_name := "Unencrypted S3 Bucket"
    severity := "HIGH"
    description := "d"
    remediation_suggestion := "r"
    compliance_framework := "NIST SP 800-53 SC-28"
    is_compliant := false
    cloud_provider := "AWS"
    account_id := some "111"
    region := "us-east-1"
    timestamp := some 50
    first_detected := none
    status := "NEW" }

/-- A database already holding one active violation for ("111", "us-east-1"). -/
def dbPrior : Db := { scan_results := [priorRow], scan_history := [] }

/-- A non-compliant HIGH row, as stored for one scanned resource. -/
def ncHighRow : ScanResultRow :=
  { scan_id := none
    resource_id := "sg-1"
    resource_type := "Security Group"
    violation_name := "Unrestricted Inbound Access"
    severity := "HIGH"
    description := "d"
    remediation_suggestion := "r"
    compliance_framework := "NIST SP 800-53 SC-7"
    is_compliant := false
    cloud_provider := "AWS"
    account_id := some "111"
    region := "us-east-1"
    timestamp := some 50
    first_detected := none
    status := "NEW" }

/-- Monitoring target 111 / us-east-1. -/
def accA : Account :=
  { account_id := "111", region := "us-east-1", access_key := none, secret_key := none }

/-- Monitoring target 222 / us-west-2. -/
def accB : Account :=
  { account_id := "222", region := "us-west-2", access_key := none, secret_key := none }

/-- One non-compliant HIGH scan result, as the scheduler's loop reads it. -/
def rawHigh : RawResult :=
  { resource_id := "sg-1"
    resource_type := "Security Group"
    violation_name := "Unrestricted Inbound Access"
    severity := "HIGH"
    description := "d"
    remediation_suggestion := "r"
    compliance_framework := "NIST SP 800-53 SC-7"
    is_compliant := false }

/-- A scan outcome where target 111 fails and every other target succeeds
with one finding. -/
def scanFailsA (a : Account) : Except String (List RawResult) :=
  if a.account_id == "111" then Except.error "AccessDenied" else Except.ok [rawHigh]

/-- A scan outcome where every target succeeds with one finding. -/
def scanOne (_ : Account) : Except String (List RawResult) := Except.ok [rawHigh]

/-- A deterministic stand-in for `uuid.uuid4()`. -/
def mkIdSimple (a : Account) : String := a.account_id ++ "-scan"

/-- Monitoring enabled for the single target 111. -/
def cfgA : MonitoringConfig := { enabled := true, interval_hours := 24, accounts := [accA] }

/-- Monitoring enabled for targets 111 then 222. -/
def cfgAB : MonitoringConfig :=
  { enabled := true, interval_hours := 24, accounts := [accA, accB] }

/-! ## Helper lemmas -/

lemma roundHalfEven_intCast (n : ℤ) : roundHalfEven (n : ℚ) = n := by
  unfold roundHalfEven
  rw [Int.floor_intCast]
  simp

lemma round2_ofInt (n : ℤ) : round2 ((n : ℤ) : ℚ) = n := by
  unfold round2
  rw [show ((n : ℚ) * 100) = ((n * 100 : ℤ) : ℚ) by push_cast; ring, roundHalfEven_intCast]
  push_cast
  rw [mul_div_assoc]
  norm_num

lemma roundHalfEven_le_of_le (x : ℚ) (c : ℤ) (h : x ≤ (c : ℚ)) : roundHalfEven x ≤ c := by
  have hf : ⌊x⌋ ≤ c := by
    have h2 := Int.floor_le_floor h
    rwa [Int.floor_intCast] at h2
  unfold roundHalfEven
  split_ifs with h1 h2 h3
  · exact hf
  · have hx : (⌊x⌋ : ℚ) + 1/2 < x := by linarith
    have hfl : (⌊x⌋ : ℚ) < (c : ℚ) := by linarith
    have : ⌊x⌋ < c := by exact_mod_cast hfl
    omega
  · exact hf
  · have hx : (⌊x⌋ : ℚ) + 1/2 ≤ x := by linarith
    have hfl : (⌊x⌋ : ℚ) < (c : ℚ) := by linarith
    have : ⌊x⌋ < c := by exact_mod_cast hfl
    omega

lemma round2_le_of_le (q : ℚ) (c : ℤ) (h : q ≤ (c : ℚ)) : round2 q ≤ (c : ℚ) := by
  unfold round2
  have h1 : roundHalfEven (q * 100) ≤ c * 100 := by
    apply roundHalfEven_le_of_le
    push_cast
    nlinarith
  rw [div_le_iff₀ (by norm_num : (0:ℚ) < 100)]
  exact_mod_cast h1

lemma severityScore_ge (k : String) (s : Nat) (h : severityScore k = Except.ok s) : 2 ≤ s := by
  simp only [severityScore, SEVERITY_LEVELS, dictLookup] at h
  split_ifs at h
  · injection h with h; omega
  · injection h with h; omega
  · injection h with h; omega
  · injection h with h; omega

lemma severityScore_of_valid (v : ViolationDict) (h : validSeverity v = true) :
    severityScore (severityKey v) = Except.ok (specSeverityWeight v.severity) := by
  cases hs : v.severity with
  | none =>
    rw [show severityKey v = "LOW" by simp [severityKey, hs]]
    decide
  | some s =>
    simp only [validSeverity, hs, Bool.or_eq_true, beq_iff_eq] at h
    rcases h with ((h | h) | h) | h <;> subst h <;>
      rw [show severityKey v = v.severity.getD "LOW" from rfl, hs] <;> decide

lemma totalSeverity_of_valid : ∀ (vs : List ViolationDict),
    (∀ v ∈ vs, validSeverity v = true) →
    totalSeverity vs = Except.ok ((vs.map fun v => specSeverityWeight v.severity).sum)
  | [], _ => rfl
  | v :: rest, h => by
    have hv : validSeverity v = true := h v (by simp)
    have hrest := totalSeverity_of_valid rest (fun w hw => h w (by simp [hw]))
    simp only [totalSeverity, severityScore_of_valid v hv, hrest, List.map_cons, List.sum_cons]

lemma totalSeverity_ge : ∀ (vs : List ViolationDict) (t : Nat),
    totalSeverity vs = Except.ok t → 2 * vs.length ≤ t
  | [], t, h => by
    simp only [totalSeverity] at h
    injection h with h
    simp only [List.length_nil]
    omega
  | v :: rest, t, h => by
    simp only [totalSeverity] at h
    cases h1 : severityScore (severityKey v) with
    | error k =>
      simp only [h1] at h
      exact Except.noConfusion h
    | ok s =>
      cases h2 : totalSeverity rest with
      | error k =>
        simp only [h1, h2] at h
        exact Except.noConfusion h
      | ok r =>
        simp only [h1, h2] at h
        injection h with h
        have hs := severityScore_ge _ _ h1
        have hr := totalSeverity_ge rest r h2
        simp only [List.length_cons]
        omega

/-! ## Claim theorems: scoring engine -/

/-- C1, counterexample: the claim says a violation with an unknown severity
weighs as LOW (so `[{severity: "UNKNOWN"}]` would score 80.0), but
`get_compliance_score` raises `KeyError("UNKNOWN")` on it. -/
theorem c1_counterexample :
    get_compliance_score [vUnknown] = Except.error "UNKNOWN"
    ∧ get_compliance_score [vUnknown] ≠ Except.ok 80 := by
  constructor
  · rfl
  · intro hc
    rw [show get_compliance_score [vUnknown] = Except.error "UNKNOWN" from rfl] at hc
    exact Except.noConfusion hc

/-- C1, amended: for every violation list whose severities are missing or
one of the four known levels, the score is 100.0 on the empty list and
otherwise max(0, 100 − (Σ weights / (count × 10)) × 100) rounded to two
decimal places, a missing severity weighing as LOW (weights CRITICAL=10,
HIGH=7, MEDIUM=4, LOW=2). -/
theorem c1_score_spec (vs : List ViolationDict)
    (h : ∀ v ∈ vs, validSeverity v = true) :
    get_compliance_score vs = Except.ok (specWeightedScore vs) := by
  by_cases he : vs = []
  · subst he; rfl
  · unfold get_compliance_score specWeightedScore
    rw [if_neg he, if_neg he, totalSeverity_of_valid vs h]

/-- C1, witness: the amended theorem applied to a two-element list with a
HIGH severity and a missing severity. -/
theorem c1_score_spec_witness :
    get_compliance_score [vHigh, vMissing] = Except.ok (specWeightedScore [vHigh, vMissing]) :=
  c1_score_spec [vHigh, vMissing] (by decide)

/-- C9: the severity-weighted score is 100.0 exactly on the empty violation
set; every non-empty set scores at most 80 since each violation weighs at
least 2. -/
theorem c9_score_100_iff_empty (vs : List ViolationDict) :
    get_compliance_score vs = Except.ok 100 ↔ vs = [] := by
  constructor
  · intro h
    by_contra hne
    unfold get_compliance_score at h
    rw [if_neg hne] at h
    cases ht : totalSeverity vs with
    | error k =>
      simp only [ht] at h
      exact Except.noConfusion h
    | ok t =>
      simp only [ht] at h
      injection h with h
      have hlen : 1 ≤ vs.length := by
        cases vs with
        | nil => exact absurd rfl hne
        | cons a l => simp
      have hts : 2 * vs.length ≤ t := totalSeverity_ge vs t ht
      have hn : (0:ℚ) < (vs.length : ℚ) * 10 := by
        have h1 : (1:ℚ) ≤ (vs.length : ℚ) := by exact_mod_cast hlen
        nlinarith
      have hexpr : (20:ℚ) ≤ (t : ℚ) / ((vs.length : ℚ) * 10) * 100 := by
        rw [div_mul_eq_mul_div, le_div_iff₀ hn]
        have h2 : ((2 * vs.length : Nat) : ℚ) ≤ (t : ℚ) := by exact_mod_cast hts
        push_cast at h2
        linarith
      have hle : max 0 (100 - (t : ℚ) / ((vs.length : ℚ) * 10) * 100) ≤ ((80:ℤ) : ℚ) := by
        apply max_le (by norm_num) (by push_cast; linarith)
      have hb := round2_le_of_le _ 80 hle
      rw [h] at hb
      norm_num at hb
  · rintro rfl; rfl

/-! ## Claim theorems: IAM risk classifier -/

lemma riskReasons_ne_nil_of_crit (a i : List String)
    (h : "AdministratorAccess" ∈ a ∨ "IAMFullAccess" ∈ a) :
    riskReasons a i ≠ [] := by
  intro hnil
  unfold riskReasons at hnil
  rcases List.append_eq_nil.mp hnil with ⟨h12, _⟩
  rcases List.append_eq_nil.mp h12 with ⟨hf, _⟩
  rcases h with h | h
  · have hm : "Has AdministratorAccess policy" ∈ a.filterMap policyReason :=
      List.mem_filterMap.mpr ⟨"AdministratorAccess", h, by decide⟩
    rw [hf] at hm
    exact absurd hm (List.not_mem_nil _)
  · have hm : "Has IAMFullAccess policy" ∈ a.filterMap policyReason :=
      List.mem_filterMap.mpr ⟨"IAMFullAccess", h, by decide⟩
    rw [hf] at hm
    exact absurd hm (List.not_mem_nil _)

/-- C4: the classifier returns CRITICAL exactly when AdministratorAccess or
IAMFullAccess is attached (overriding all else); otherwise HIGH for three
or more accumulated reasons, MEDIUM for one or two, LOW for none; and the
two concrete evaluations from the spec hold. -/
theorem c4_risk_level_table (attached inline_policies : List String) :
    ((analyze_risk attached inline_policies).1 = "CRITICAL" ↔
      ("AdministratorAccess" ∈ attached ∨ "IAMFullAccess" ∈ attached))
    ∧ ((analyze_risk attached inline_policies).1 = "HIGH" ↔
      (¬("AdministratorAccess" ∈ attached ∨ "IAMFullAccess" ∈ attached)
        ∧ 3 ≤ (analyze_risk attached inline_policies).2.length))
    ∧ ((analyze_risk attached inline_policies).1 = "MEDIUM" ↔
      (¬("AdministratorAccess" ∈ attached ∨ "IAMFullAccess" ∈ attached)
        ∧ ((analyze_risk attached inline_policies).2.length = 1
          ∨ (analyze_risk attached inline_policies).2.length = 2)))
    ∧ ((analyze_risk attached inline_policies).1 = "LOW" ↔
      (¬("AdministratorAccess" ∈ attached ∨ "IAMFullAccess" ∈ attached)
        ∧ (analyze_risk attached inline_policies).2.length = 0))
    ∧ analyze_risk [] [] = ("LOW", [])
    ∧ analyze_risk ["AdministratorAccess"] [] =
        ("CRITICAL", ["Has AdministratorAccess policy"]) := by
  simp only [analyze_risk]
  refine ⟨?_, ?_, ?_, ?_, by decide, by decide⟩
  · unfold riskLevel
    split_ifs with hc h3 h0
    · exact iff_of_true rfl hc
    · exact iff_of_false (by decide) hc
    · exact iff_of_false (by decide) hc
    · exact iff_of_false (by decide) hc
  · unfold riskLevel
    split_ifs with hc h3 h0
    · exact iff_of_false (by decide) (fun h => h.1 hc)
    · exact iff_of_true rfl ⟨hc, h3⟩
    · exact iff_of_false (by decide) (fun h => h3 h.2)
    · exact iff_of_false (by decide) (fun h => h3 h.2)
  · unfold riskLevel
    split_ifs with hc h3 h0
    · exact iff_of_false (by decide) (fun h => h.1 hc)
    · exact iff_of_false (by decide) (fun h => by rcases h.2 with h' | h' <;> omega)
    · exact iff_of_true rfl ⟨hc, by omega⟩
    · exact iff_of_false (by decide) (fun h => by rcases h.2 with h' | h' <;> omega)
  · unfold riskLevel
    split_ifs with hc h3 h0
    · exact iff_of_false (by decide) (fun h => h.1 hc)
    · exact iff_of_false (by decide) (fun h => by omega)
    · exact iff_of_false (by decide) (fun h => by omega)
    · exact iff_of_true rfl ⟨hc, by omega⟩

/-- C10: the classifier returns LOW exactly when the returned reason list
is empty, and it never returns CRITICAL with an empty reason list, because
AdministratorAccess and IAMFullAccess are themselves in the risky-policy
set and hence contribute a reason. -/
theorem c10_low_iff_no_reasons (attached inline_policies : List String) :
    ((analyze_risk attached inline_policies).1 = "LOW" ↔
      (analyze_risk attached inline_policies).2 = [])
    ∧ ¬((analyze_risk attached inline_policies).1 = "CRITICAL"
        ∧ (analyze_risk attached inline_policies).2 = [])
    ∧ "AdministratorAccess" ∈ RISKY_POLICIES
    ∧ "IAMFullAccess" ∈ RISKY_POLICIES := by
  simp only [analyze_risk]
  refine ⟨?_, ?_, by decide, by decide⟩
  · unfold riskLevel
    split_ifs with hc h3 h0
    · exact iff_of_false (by decide) (riskReasons_ne_nil_of_crit _ _ hc)
    · exact iff_of_false (by decide) (fun hn => by rw [hn] at h3; simp at h3)
    · exact iff_of_false (by decide) (fun hn => by rw [hn] at h0; simp at h0)
    · exact iff_of_true rfl (List.length_eq_zero.mp (by omega))
  · rintro ⟨hcrit, hnil⟩
    unfold riskLevel at hcrit
    split_ifs at hcrit with hc h3 h0
    · exact riskReasons_ne_nil_of_crit _ _ hc hnil
    · exact absurd hcrit (by decide)
    · exact absurd hcrit (by decide)
    · exact absurd hcrit (by decide)

/-! ## Claim theorems: orchestration, scheduler, configuration -/

lemma filter_not_filter {α : Type} (p : α → Bool) (l : List α) :
    (l.filter fun a => !p a).filter p = [] := by
  induction l with
  | nil => rfl
  | cons a t ih => cases h : p a <;> simp [List.filter_cons, h, ih]

lemma length_filter_add {α : Type} (p : α → Bool) (l : List α) :
    (l.filter p).length + (l.filter fun a => !p a).length = l.length := by
  induction l with
  | nil => rfl
  | cons a t ih => cases h : p a <;> simp [List.filter_cons, h] <;> omega

lemma processAccounts_history_mem (scan : Account → Except String (List RawResult))
    (mkId : Account → String) (now : Nat) :
    ∀ (ts : List Account) (db : Db) (h : ScanHistoryRow),
      h ∈ (processAccounts scan mkId now ts db).scan_history →
      h ∈ db.scan_history ∨ h.triggered_by = "scheduled"
  | [], _, _, hm => Or.inl hm
  | a :: rest, db, h, hm => by
    unfold processAccounts at hm
    cases hs : scan a with
    | error e =>
      simp only [hs] at hm
      exact Or.inl hm
    | ok results =>
      simp only [hs] at hm
      rcases processAccounts_history_mem scan mkId now rest
          (commitAccount (mkId a) now a results db) h hm with hin | hsch
      · simp only [commitAccount] at hin
        rcases List.mem_append.mp hin with h1 | h1
        · exact Or.inl h1
        · right
          have h2 := List.mem_singleton.mp h1
          subst h2
          rfl
      · exact Or.inr hsch

/-- C2, code-bug evidence: re-scanning the same scope with an identical
single finding leaves every stored row with status "NEW" — never
"EXISTING" — and `first_detected` is not preserved: the orchestration path
never sets it (it stays `none` after both runs), and the scheduler path
resets it to the current scan time on each run (some 100, then some 200). -/
theorem c2_no_reconciliation :
    ((scan_all_resources "111" "us-east-1" 200 (Except.ok [bucketNoEnc]) []
        (scan_all_resources "111" "us-east-1" 100 (Except.ok [bucketNoEnc]) []
          emptyDb).final).final.scan_results.map
      (fun row => (row.status, row.first_detected)) = [("NEW", (none : Option Nat))])
    ∧ ((scheduled_scan_job cfgA scanOne mkIdSimple 200
          (scheduled_scan_job cfgA scanOne mkIdSimple 100 emptyDb)).scan_results.map
        (fun row => (row.status, row.first_detected))
      = [("NEW", some 100), ("NEW", some 200)]) :=
  ⟨rfl, rfl⟩

/-- C3, counterexample: with one previously stored active violation for the
scope and a whole-scope S3 inventory-fetch failure, the cycle still runs:
the scope's old violations are wiped (not left untouched) and the final
committed state shows a violation-free scope — a fabricated compliant
result. -/
theorem c3_counterexample :
    activeFor "111" "us-east-1" dbPrior = [priorRow]
    ∧ (scan_all_resources "111" "us-east-1" 100 (Except.error "NoCredentials")
        [] dbPrior).final.scan_results = []
    ∧ activeFor "111" "us-east-1"
        (scan_all_resources "111" "us-east-1" 100 (Except.error "NoCredentials")
          [] dbPrior).final = [] :=
  ⟨rfl, rfl, rfl⟩

/-- C3, amended: a whole-scope inventory-fetch failure does not abort the
cycle; it is swallowed inside the scanner and the cycle behaves exactly as
if the inventory were empty (old scope rows deleted and committed, the
other checkers' findings committed), so the failure is reflected as a
compliant-looking result; no ScanHistory row is written, but only because
`scan_all_resources` never writes one. -/
theorem c3_fetch_error_like_empty (account_id region : String) (now : Nat)
    (msg : String) (otherFindings : List ScannerViolation) (db : Db) :
    scan_all_resources account_id region now (Except.error msg) otherFindings db
      = scan_all_resources account_id region now (Except.ok []) otherFindings db
    ∧ (scan_all_resources account_id region now (Except.error msg)
        otherFindings db).final.scan_history = db.scan_history
    ∧ (scan_all_resources account_id region now (Except.error msg)
        otherFindings db).afterDelete.scan_history = db.scan_history :=
  ⟨rfl, rfl, rfl⟩

/-- C5, counterexample: with a stored violation for the scope and a cycle
whose true final result is non-empty, the committed state after the delete
step shows the scope with zero active violations — an observable empty set
mid-transition. -/
theorem c5_counterexample :
    activeFor "111" "us-east-1"
      (scan_all_resources "111" "us-east-1" 100 (Except.ok [bucketNoEnc])
        [] dbPrior).afterDelete = []
    ∧ activeFor "111" "us-east-1"
        (scan_all_resources "111" "us-east-1" 100 (Except.ok [bucketNoEnc])
          [] dbPrior).final ≠ [] := by
  refine ⟨rfl, ?_⟩
  decide

/-- C5, amended: the replacement is not atomic; the deletion of the scope's
old rows is committed before the checkers run and the new rows are
committed, so at the intermediate observable state a reader always finds
zero active violations for the scope, whatever the cycle's final result. -/
theorem c5_reader_sees_empty_mid_cycle (account_id region : String) (now : Nat)
    (s3Inventory : Except String (List Bucket))
    (otherFindings : List ScannerViolation) (db : Db) :
    activeFor account_id region
      (scan_all_resources account_id region now s3Inventory otherFindings db).afterDelete
      = [] :=
  filter_not_filter _ db.scan_results

/-- C6, counterexample: monitoring enabled with targets 111 then 222, where
scanning 111 fails and scanning 222 would succeed with one finding; the
firing produces no ScanHistory row at all — target 222 is never scanned. -/
theorem c6_counterexample :
    scanFailsA accB = Except.ok [rawHigh]
    ∧ (scheduled_scan_job cfgAB scanFailsA mkIdSimple 0 emptyDb).scan_history = []
    ∧ (scheduled_scan_job cfgAB scanFailsA mkIdSimple 0 emptyDb).scan_results = [] :=
  ⟨rfl, rfl, rfl⟩

/-- C6, amended: one target's failure aborts the remainder of the firing —
the job equals the job run on the prefix of targets before the failing one,
so the failing target and all later targets produce nothing; every
ScanHistory row the firing does produce carries triggered_by="scheduled". -/
theorem c6_failure_aborts_rest (scan : Account → Except String (List RawResult))
    (mkId : Account → String) (now : Nat) (db : Db)
    (ts1 : List Account) (a : Account) (ts2 : List Account) (e : String)
    (hok : ∀ t ∈ ts1, ∃ rs, scan t = Except.ok rs)
    (ha : scan a = Except.error e) :
    processAccounts scan mkId now (ts1 ++ a :: ts2) db
      = processAccounts scan mkId now ts1 db
    ∧ ∀ h ∈ (processAccounts scan mkId now (ts1 ++ a :: ts2) db).scan_history,
        h ∈ db.scan_history ∨ h.triggered_by = "scheduled" := by
  have key : ∀ (ts : List Account) (d : Db), (∀ t ∈ ts, ∃ rs, scan t = Except.ok rs) →
      processAccounts scan mkId now (ts ++ a :: ts2) d
        = processAccounts scan mkId now ts d := by
    intro ts
    induction ts with
    | nil =>
      intro d _
      simp only [List.nil_append]
      unfold processAccounts
      simp only [ha]
    | cons t rest ih =>
      intro d hok2
      obtain ⟨rs, hrs⟩ := hok2 t (by simp)
      simp only [List.cons_append]
      unfold processAccounts
      simp only [hrs]
      exact ih _ (fun w hw => hok2 w (by simp [hw]))
  exact ⟨key ts1 db hok,
    fun h hm => processAccounts_history_mem scan mkId now _ db h hm⟩

/-- C6, witness: the amended theorem applied to targets [222] ++ 111 :: [],
where 222 succeeds and 111 fails. -/
theorem c6_failure_aborts_rest_witness :
    processAccounts scanFailsA mkIdSimple 0 ([accB] ++ accA :: []) emptyDb
      = processAccounts scanFailsA mkIdSimple 0 [accB] emptyDb :=
  (c6_failure_aborts_rest scanFailsA mkIdSimple 0 emptyDb [accB] accA [] "AccessDenied"
    (by
      intro t ht
      simp only [List.mem_singleton] at ht
      subst ht
      exact ⟨[rawHigh], rfl⟩)
    rfl).1

/-- C7, counterexample: `configure_monitoring` accepts an invalid interval
(-5 ≤ 0) without error and persists it — the stored configuration is
changed, not left unchanged. -/
theorem c7_counterexample :
    configure_monitoring true (-5) none DEFAULT_CONFIG
      = { enabled := true, interval_hours := -5, accounts := [] }
    ∧ (-5 : Int) ≤ 0
    ∧ configure_monitoring true (-5) none DEFAULT_CONFIG ≠ DEFAULT_CONFIG := by
  refine ⟨rfl, by decide, ?_⟩
  decide

/-- C7, amended: `configure_monitoring` performs no validation at all —
even with an interval ≤ 0 the call succeeds and the persisted config is
overwritten with exactly the provided values (targets stored as given,
without inspection). -/
theorem c7_no_validation (enabled : Bool) (interval_hours : Int)
    (accounts : List Account) (cfg : MonitoringConfig)
    (h : interval_hours ≤ 0) :
    configure_monitoring enabled interval_hours (some accounts) cfg
      = { enabled := enabled, interval_hours := interval_hours, accounts := accounts } :=
  rfl

/-- C7, witness: the amended theorem applied at interval -5. -/
theorem c7_no_validation_witness :
    configure_monitoring true (-5) (some [accA]) DEFAULT_CONFIG
      = { enabled := true, interval_hours := -5, accounts := [accA] } :=
  c7_no_validation true (-5) [accA] DEFAULT_CONFIG (by decide)

/-- C8, counterexample: for a single non-compliant HIGH resource the PDF
report's executive-summary score is the coverage score 0.0, not the
severity-weighted score 30.0 of §4.3 — the report-level summary does not
report the severity-weighted score. -/
theorem c8_counterexample :
    reportComplianceScore [ncHighRow] = 0
    ∧ get_compliance_score [vHigh] = Except.ok 30
    ∧ (0 : ℚ) ≠ 30 := by
  refine ⟨?_, ?_, by norm_num⟩
  · rw [show reportComplianceScore [ncHighRow]
        = ((1 - 1 : Nat) : ℚ) / ((1 : Nat) : ℚ) * 100 from rfl]
    norm_num
  · have h : totalSeverity [vHigh] = Except.ok 7 := rfl
    simp only [get_compliance_score, h, List.length_cons, List.length_nil]
    rw [if_neg (by simp)]
    norm_num
    rw [show (30:ℚ) = ((30:ℤ):ℚ) by norm_num, round2_ofInt]

/-- C8, amended: both formulas are implemented, but every user-facing score
surface — the dashboard, the ScanHistory record and also the PDF report's
executive summary — computes the resource-coverage score
compliant/total×100 (the dashboard rounding it to 2 decimals, the history
record truncating it to an integer); the severity-weighted
`get_compliance_score` exists but is the one mentioned by no surface. -/
theorem c8_coverage_everywhere (rs : List ScanResultRow) (h : 0 < rs.length) :
    reportComplianceScore rs
      = (((rs.filter fun r => r.is_compliant).length : ℚ) * 100) / (rs.length : ℚ)
    ∧ dashboardComplianceScore rs
      = round2 ((((rs.filter fun r => r.is_compliant).length : ℚ) * 100) / (rs.length : ℚ))
    ∧ historyComplianceScore rs.length (rs.filter fun r => r.is_compliant).length
      = ⌊(((rs.filter fun r => r.is_compliant).length : ℚ) * 100) / (rs.length : ℚ)⌋ := by
  have hsplit := length_filter_add (fun r => r.is_compliant) rs
  refine ⟨?_, ?_, ?_⟩
  · unfold reportComplianceScore
    rw [if_pos h, show rs.length - (rs.filter fun r => !r.is_compliant).length
        = (rs.filter fun r => r.is_compliant).length by omega, div_mul_eq_mul_div]
  · unfold dashboardComplianceScore
    rw [if_pos h, div_mul_eq_mul_div]
  · unfold historyComplianceScore
    rw [if_pos h, div_mul_eq_mul_div]

/-- C8, witness: the amended theorem applied to the single-row store. -/
theorem c8_coverage_everywhere_witness :
    reportComplianceScore [ncHighRow]
      = ((([ncHighRow].filter fun r => r.is_compliant).length : ℚ) * 100)
        / (([ncHighRow].length : ℚ))
    ∧ dashboardComplianceScore [ncHighRow]
      = round2 (((([ncHighRow].filter fun r => r.is_compliant).length : ℚ) * 100)
        / (([ncHighRow].length : ℚ)))
    ∧ historyComplianceScore [ncHighRow].length
        ([ncHighRow].filter fun r => r.is_compliant).length
      = ⌊((([ncHighRow].filter fun r => r.is_compliant).length : ℚ) * 100)
        / (([ncHighRow].length : ℚ))⌋ :=
  c8_coverage_everywhere [ncHighRow] (by decide)
